import Mathlib

/-!
# safe-lifecycle: health reporting of the demo gRPC server

A shallow embedding of `main.go`: the four atomic flags of `state`, the
`HealthChecker.Check` method, the two management handlers
(`/toggle-db-health`, `/toggle-downstream-health`) and the two stores `main`
performs on `isInitialized` and `shutdownInitiated`.

Modelling decisions:

* an `atomic.Bool` is a `Bool` field; `Load` is a field read and `Store` a
  record update. Every operation is modelled as running on its own (one
  handler or one `Check` at a time);
* `log.Println` / `log.Printf` output is returned as the list of logged lines
  (without the timestamp the logger would put in front);
* the Go result pair `(*HealthCheckResponse, error)` is an `Except`: `ok` is a
  response with a `nil` error, `error` is a `nil` response with a gRPC status;
* the `context.Context` argument of `Check` is unused by the code and dropped.
-/

namespace SafeLifecycle

/-- The `ServingStatus` enumeration of `grpc_health_v1.HealthCheckResponse`. -/
inductive ServingStatus where
  | UNKNOWN
  | SERVING
  | NOT_SERVING
  | SERVICE_UNKNOWN
  deriving DecidableEq, Repr

/-- The request message of the health service: the name of the probed service. -/
structure HealthCheckRequest where
  Service : String
  deriving DecidableEq, Repr

/-- The response message of the health service. -/
structure HealthCheckResponse where
  Status : ServingStatus
  deriving DecidableEq, Repr

/-- The gRPC status codes the program uses. -/
inductive Code where
  | NotFound
  | Unimplemented
  deriving DecidableEq, Repr

/-- An error built by `status.Errorf(code, format, args...)`. -/
structure StatusError where
  code : Code
  message : String
  deriving DecidableEq, Repr

/-- The internal state of the application (`type state struct`). -/
structure state where
  dbHealthy : Bool
  downstreamHealthy : Bool
  isInitialized : Bool
  shutdownInitiated : Bool
  deriving DecidableEq, Repr

/-- The receiver of `Check` (`type HealthChecker struct`). -/
structure HealthChecker where
  appState : state
  deriving DecidableEq, Repr

/-- What one call of `Check` produces: the lines it logs and the pair it returns. -/
structure CheckOutcome where
  logged : List String
  result : Except StatusError HealthCheckResponse

/-- The method `HealthChecker.Check` of `main.go`. -/
def Check (h : HealthChecker) (req : HealthCheckRequest) : CheckOutcome :=
  if req.Service == "" || req.Service == "liveness" then
    if h.appState.shutdownInitiated then
      { logged := ["Liveness check failed: shutdown in progress"],
        result := .ok { Status := .NOT_SERVING } }
    else
      { logged := [], result := .ok { Status := .SERVING } }
  else if req.Service == "readiness" || req.Service == "startup" then
    if !h.appState.isInitialized then
      { logged := ["Readiness/Startup check failed: not initialized yet"],
        result := .ok { Status := .NOT_SERVING } }
    else if !h.appState.dbHealthy then
      { logged := ["Readiness/Startup check failed: database is not healthy"],
        result := .ok { Status := .NOT_SERVING } }
    else if !h.appState.downstreamHealthy then
      { logged := ["Readiness/Startup check failed: downstream service is not healthy"],
        result := .ok { Status := .NOT_SERVING } }
    else if h.appState.shutdownInitiated then
      { logged := ["Readiness/Startup check failed: shutdown in progress"],
        result := .ok { Status := .NOT_SERVING } }
    else
      { logged := [], result := .ok { Status := .SERVING } }
  else
    { logged := [],
      result := .error { code := .NotFound, message := "unknown service: " ++ req.Service } }

/-- The `%t` verb of Go's `fmt` package. -/
def fmtBool (b : Bool) : String :=
  if b then "true" else "false"

/-- What one management handler produces: the state it leaves, the line it
logs and the body it writes to the HTTP response. -/
structure HandlerOutcome where
  appState : state
  logged : List String
  body : String
  deriving DecidableEq, Repr

/-- The handler registered at `/toggle-db-health`. -/
def toggleDbHealth (appState : state) : HandlerOutcome :=
  let current := appState.dbHealthy
  { appState := { appState with dbHealthy := !current },
    logged := ["Toggled DB health to: " ++ fmtBool (!current) ++ "\n"],
    body := "DB health is now: " ++ fmtBool (!current) ++ "\n" }

/-- The handler registered at `/toggle-downstream-health`. -/
def toggleDownstreamHealth (appState : state) : HandlerOutcome :=
  let current := appState.downstreamHealthy
  { appState := { appState with downstreamHealthy := !current },
    logged := ["Toggled Downstream Service health to: " ++ fmtBool (!current) ++ "\n"],
    body := "Downstream Service health is now: " ++ fmtBool (!current) ++ "\n" }

/-- The zero value `&state{}`: every `atomic.Bool` starts false. -/
def zeroState : state :=
  { dbHealthy := false, downstreamHealthy := false,
    isInitialized := false, shutdownInitiated := false }

/-- The state `main` builds under "Initialize State": the zero value followed
by the three stores. -/
def initialState : state :=
  let s0 := zeroState
  let s1 := { s0 with dbHealthy := true }
  let s2 := { s1 with downstreamHealthy := true }
  { s2 with isInitialized := false }

/-- The store `appState.isInitialized.Store(true)` of `main`. -/
def markInitialized (appState : state) : state :=
  { appState with isInitialized := true }

/-- The store `appState.shutdownInitiated.Store(true)` of `main`. -/
def initiateShutdown (appState : state) : state :=
  { appState with shutdownInitiated := true }

/-- One state mutation of the running program. -/
inductive Step : state → state → Prop where
  | toggleDb (s : state) : Step s (toggleDbHealth s).appState
  | toggleDownstream (s : state) : Step s (toggleDownstreamHealth s).appState
  | markInitialized (s : state) : Step s (markInitialized s)
  | initiateShutdown (s : state) : Step s (initiateShutdown s)

/-- The conditions a readiness or startup check can fail on, in the priority
order the specification gives, each paired with the line the code logs for it. -/
def specFailurePriority (s : state) : List (Bool × String) :=
  [ (!s.isInitialized, "Readiness/Startup check failed: not initialized yet"),
    (!s.dbHealthy, "Readiness/Startup check failed: database is not healthy"),
    (!s.downstreamHealthy, "Readiness/Startup check failed: downstream service is not healthy"),
    (s.shutdownInitiated, "Readiness/Startup check failed: shutdown in progress") ]

/-- The reason the specification says is reported: the first condition of the
priority list that fails, if any. -/
def specReportedReason (s : state) : Option String :=
  ((specFailurePriority s).find? (fun c => c.1)).map (fun c => c.2)

/-! ## Helper lemmas -/

/-- A single step never clears `shutdownInitiated`. -/
lemma Step.shutdown_preserved {s t : state} (h : Step s t)
    (hs : s.shutdownInitiated = true) : t.shutdownInitiated = true := by
  cases h <;> simp [toggleDbHealth, toggleDownstreamHealth, SafeLifecycle.markInitialized,
    SafeLifecycle.initiateShutdown, hs]

/-- A readiness check on a state that is shutting down answers `NOT_SERVING`. -/
lemma readiness_of_shutdown (s : state) (hs : s.shutdownInitiated = true) :
    (Check ⟨s⟩ ⟨"readiness"⟩).result = .ok ⟨.NOT_SERVING⟩ := by
  rcases s with ⟨db, ds, ini, sd⟩
  cases db <;> cases ds <;> cases ini <;> simp_all [Check]

/-! ## Health verdicts -/

/-- C1: for every state, `Check` with service `readiness` returns `SERVING`
with no error exactly when the state is initialized, both dependency flags are
healthy and shutdown has not been initiated; in every other state it returns
`NOT_SERVING` with no error. -/
theorem check_readiness_serving_iff (s : state) :
    ((Check ⟨s⟩ ⟨"readiness"⟩).result = .ok ⟨.SERVING⟩ ↔
      (s.isInitialized = true ∧ s.dbHealthy = true ∧ s.downstreamHealthy = true ∧
        s.shutdownInitiated = false)) ∧
    (Check ⟨s⟩ ⟨"readiness"⟩).result =
      .ok ⟨if s.isInitialized && s.dbHealthy && s.downstreamHealthy && !s.shutdownInitiated
        then .SERVING else .NOT_SERVING⟩ := by
  rcases s with ⟨db, ds, ini, sd⟩
  cases db <;> cases ds <;> cases ini <;> cases sd <;> simp [Check]

/-- C2: for every state, `Check` with service `liveness` returns `SERVING`
exactly when shutdown has not been initiated and `NOT_SERVING` otherwise, with
no error; overwriting the two dependency flags and the initialization flag
with arbitrary values leaves the answer unchanged, and the state with both
dependencies unhealthy and not initialized is answered `SERVING`. -/
theorem check_liveness_only_shutdown (s : state) (db ds ini : Bool) :
    (Check ⟨s⟩ ⟨"liveness"⟩).result =
      .ok ⟨if s.shutdownInitiated then .NOT_SERVING else .SERVING⟩ ∧
    ((Check ⟨s⟩ ⟨"liveness"⟩).result = .ok ⟨.SERVING⟩ ↔ s.shutdownInitiated = false) ∧
    (Check ⟨{ s with dbHealthy := db, downstreamHealthy := ds, isInitialized := ini }⟩
        ⟨"liveness"⟩).result = (Check ⟨s⟩ ⟨"liveness"⟩).result ∧
    (Check ⟨{ dbHealthy := false, downstreamHealthy := false, isInitialized := false,
              shutdownInitiated := false }⟩ ⟨"liveness"⟩).result = .ok ⟨.SERVING⟩ := by
  rcases s with ⟨db0, ds0, ini0, sd⟩
  cases sd <;> simp [Check]

/-- C3 (counterexample): the empty service name is none of `liveness`,
`readiness`, `startup`, yet `Check` answers it with a verdict (`SERVING` in the
initial state) instead of the unknown-service error. -/
theorem check_empty_name_returns_verdict :
    "" ≠ "liveness" ∧ "" ≠ "readiness" ∧ "" ≠ "startup" ∧
    (Check ⟨initialState⟩ ⟨""⟩).result = .ok ⟨.SERVING⟩ := by
  refine ⟨by decide, by decide, by decide, ?_⟩
  simp [Check, initialState, zeroState]

/-- C3 (amended): for every state and every requested name that is neither
empty nor one of `liveness`, `readiness`, `startup`, `Check` logs nothing and
fails with the `NotFound` status whose message carries the requested name; it
returns no response. The empty name is answered as a liveness check: in every
state `Check` produces for it exactly what it produces for `liveness`, namely
`SERVING` when shutdown has not been initiated and `NOT_SERVING` otherwise. -/
theorem check_unknown_service (s : state) (name : String)
    (h0 : name ≠ "") (h1 : name ≠ "liveness") (h2 : name ≠ "readiness")
    (h3 : name ≠ "startup") :
    Check ⟨s⟩ ⟨name⟩ =
      { logged := [],
        result := .error { code := .NotFound, message := "unknown service: " ++ name } } ∧
    (∀ r : HealthCheckResponse, (Check ⟨s⟩ ⟨name⟩).result ≠ .ok r) ∧
    Check ⟨s⟩ ⟨""⟩ = Check ⟨s⟩ ⟨"liveness"⟩ ∧
    (Check ⟨s⟩ ⟨""⟩).result =
      .ok ⟨if s.shutdownInitiated then .NOT_SERVING else .SERVING⟩ := by
  have h : Check ⟨s⟩ ⟨name⟩ =
      { logged := [],
        result := .error { code := .NotFound, message := "unknown service: " ++ name } } := by
    simp [Check, h0, h1, h2, h3]
  refine ⟨h, ?_, ?_, ?_⟩
  · intro r
    rw [h]
    simp
  · simp [Check]
  · rcases s with ⟨db, ds, ini, sd⟩
    cases sd <;> simp [Check]

/-- C3 (witness): after shutdown has been initiated, the name `foo` is
rejected, while the empty name gets the liveness answer `NOT_SERVING`. -/
theorem check_unknown_service_witness :
    Check ⟨initiateShutdown initialState⟩ ⟨"foo"⟩ =
      { logged := [],
        result := .error { code := .NotFound, message := "unknown service: " ++ "foo" } } ∧
    (∀ r : HealthCheckResponse,
      (Check ⟨initiateShutdown initialState⟩ ⟨"foo"⟩).result ≠ .ok r) ∧
    Check ⟨initiateShutdown initialState⟩ ⟨""⟩ =
      Check ⟨initiateShutdown initialState⟩ ⟨"liveness"⟩ ∧
    (Check ⟨initiateShutdown initialState⟩ ⟨""⟩).result = .ok ⟨.NOT_SERVING⟩ :=
  check_unknown_service (initiateShutdown initialState) "foo"
    (by decide) (by decide) (by decide) (by decide)

/-- C7: for every state, `Check` with service `startup` produces exactly what
`Check` with service `readiness` produces (same logged line, same response),
and that result is a verdict, not an error. -/
theorem check_startup_eq_readiness (s : state) :
    Check ⟨s⟩ ⟨"startup"⟩ = Check ⟨s⟩ ⟨"readiness"⟩ ∧
    ((Check ⟨s⟩ ⟨"startup"⟩).result = .ok ⟨.SERVING⟩ ∨
      (Check ⟨s⟩ ⟨"startup"⟩).result = .ok ⟨.NOT_SERVING⟩) := by
  rcases s with ⟨db, ds, ini, sd⟩
  cases db <;> cases ds <;> cases ini <;> cases sd <;> simp [Check]

/-! ## Shutdown is monotonic -/

/-- C4: once `shutdownInitiated` is true, every state reached by any sequence
of further mutations (db toggle, downstream toggle, mark initialized, initiate
shutdown) still has `shutdownInitiated` true, and `Check` with service
`readiness` answers `NOT_SERVING` there. -/
theorem shutdown_monotonic (s t : state) (hs : s.shutdownInitiated = true)
    (hreach : Relation.ReflTransGen Step s t) :
    t.shutdownInitiated = true ∧ (Check ⟨t⟩ ⟨"readiness"⟩).result = .ok ⟨.NOT_SERVING⟩ := by
  have ht : t.shutdownInitiated = true := by
    induction hreach with
    | refl => exact hs
    | tail _ hstep ih => exact hstep.shutdown_preserved ih
  exact ⟨ht, readiness_of_shutdown t ht⟩

/-- C4 (witness): the program is initialized, shutdown is initiated, then the
database is toggled off and on again and the downstream service is toggled
off; the flag stays set and readiness is `NOT_SERVING`, also while both
dependencies are healthy. -/
theorem shutdown_monotonic_witness :
    (initiateShutdown (markInitialized initialState)).shutdownInitiated = true ∧
    ((toggleDownstreamHealth (toggleDbHealth (toggleDbHealth
        (initiateShutdown (markInitialized initialState))).appState).appState).appState
      ).shutdownInitiated = true ∧
    (Check ⟨(toggleDownstreamHealth (toggleDbHealth (toggleDbHealth
        (initiateShutdown (markInitialized initialState))).appState).appState).appState⟩
      ⟨"readiness"⟩).result = .ok ⟨.NOT_SERVING⟩ :=
  ⟨rfl,
   shutdown_monotonic (initiateShutdown (markInitialized initialState)) _ rfl
    (((Relation.ReflTransGen.refl.tail (Step.toggleDb _)).tail (Step.toggleDb _)).tail
      (Step.toggleDownstream _))⟩

/-! ## The dependency toggles -/

/-- C5 (counterexample): from the initial state, running the db toggle twice
leaves a state different from running it once, and likewise for the downstream
toggle. -/
theorem toggle_twice_ne_once :
    (toggleDbHealth (toggleDbHealth initialState).appState).appState ≠
      (toggleDbHealth initialState).appState ∧
    (toggleDownstreamHealth (toggleDownstreamHealth initialState).appState).appState ≠
      (toggleDownstreamHealth initialState).appState := by
  decide

/-- C5 (amended): each dependency toggle undoes itself when repeated: for every
state, applying it twice in a row leaves the state it started from, which
differs from the state left by applying it once. -/
theorem toggle_twice_restores (s : state) :
    ((toggleDbHealth (toggleDbHealth s).appState).appState = s ∧
      (toggleDbHealth (toggleDbHealth s).appState).appState ≠ (toggleDbHealth s).appState) ∧
    ((toggleDownstreamHealth (toggleDownstreamHealth s).appState).appState = s ∧
      (toggleDownstreamHealth (toggleDownstreamHealth s).appState).appState ≠
        (toggleDownstreamHealth s).appState) := by
  rcases s with ⟨db, ds, ini, sd⟩
  cases db <;> cases ds <;> simp [toggleDbHealth, toggleDownstreamHealth]

/-- C10: each dependency toggle negates its own flag and leaves the three other
flags as they were: the db toggle yields `dbHealthy = !dbHealthy` with
`downstreamHealthy`, `isInitialized`, `shutdownInitiated` unchanged, the
downstream toggle yields `downstreamHealthy = !downstreamHealthy` with
`dbHealthy`, `isInitialized`, `shutdownInitiated` unchanged; the same toggle
run twice gives back the state it started from. -/
theorem toggle_frame (s : state) :
    (toggleDbHealth s).appState =
      { dbHealthy := !s.dbHealthy, downstreamHealthy := s.downstreamHealthy,
        isInitialized := s.isInitialized, shutdownInitiated := s.shutdownInitiated } ∧
    (toggleDownstreamHealth s).appState =
      { dbHealthy := s.dbHealthy, downstreamHealthy := !s.downstreamHealthy,
        isInitialized := s.isInitialized, shutdownInitiated := s.shutdownInitiated } ∧
    (toggleDbHealth (toggleDbHealth s).appState).appState = s ∧
    (toggleDownstreamHealth (toggleDownstreamHealth s).appState).appState = s := by
  rcases s with ⟨db, ds, ini, sd⟩
  simp [toggleDbHealth, toggleDownstreamHealth]

/-! ## The scenario of the specification -/

/-- C6: in the start-up state (db healthy, downstream healthy, not initialized,
shutdown not initiated) readiness is `NOT_SERVING`; after marking initialized
readiness is `SERVING`; after one db toggle readiness is `NOT_SERVING` and
liveness is `SERVING`; after initiating shutdown readiness and liveness are
both `NOT_SERVING`. -/
theorem scenario_step_by_step :
    initialState = { dbHealthy := true, downstreamHealthy := true,
                     isInitialized := false, shutdownInitiated := false } ∧
    (Check ⟨initialState⟩ ⟨"readiness"⟩).result = .ok ⟨.NOT_SERVING⟩ ∧
    (Check ⟨markInitialized initialState⟩ ⟨"readiness"⟩).result = .ok ⟨.SERVING⟩ ∧
    (toggleDbHealth (markInitialized initialState)).appState.dbHealthy = false ∧
    (Check ⟨(toggleDbHealth (markInitialized initialState)).appState⟩
      ⟨"readiness"⟩).result = .ok ⟨.NOT_SERVING⟩ ∧
    (Check ⟨(toggleDbHealth (markInitialized initialState)).appState⟩
      ⟨"liveness"⟩).result = .ok ⟨.SERVING⟩ ∧
    (Check ⟨initiateShutdown (toggleDbHealth (markInitialized initialState)).appState⟩
      ⟨"readiness"⟩).result = .ok ⟨.NOT_SERVING⟩ ∧
    (Check ⟨initiateShutdown (toggleDbHealth (markInitialized initialState)).appState⟩
      ⟨"liveness"⟩).result = .ok ⟨.NOT_SERVING⟩ := by
  simp [Check, initialState, zeroState, markInitialized, initiateShutdown, toggleDbHealth]

/-! ## Which failing condition is reported -/

/-- C9: for every state, the line a readiness check logs, and likewise a
startup check, is the one of the first failing condition in the order
not-initialized, database, downstream, shutdown-in-progress (nothing is logged
when none fails), and the check answers `NOT_SERVING` exactly when there is
such a condition. A state that is uninitialized and shutting down reports "not
initialized yet"; an initialized state with an unhealthy database and shutdown
initiated reports the database. -/
theorem check_reports_first_failure (s : state) :
    (Check ⟨s⟩ ⟨"readiness"⟩).logged = (specReportedReason s).toList ∧
    (Check ⟨s⟩ ⟨"startup"⟩).logged = (specReportedReason s).toList ∧
    ((Check ⟨s⟩ ⟨"readiness"⟩).result = .ok ⟨.NOT_SERVING⟩ ↔
      (specReportedReason s).isSome = true) ∧
    ((Check ⟨s⟩ ⟨"startup"⟩).result = .ok ⟨.NOT_SERVING⟩ ↔
      (specReportedReason s).isSome = true) ∧
    (Check ⟨{ dbHealthy := true, downstreamHealthy := true, isInitialized := false,
              shutdownInitiated := true }⟩ ⟨"readiness"⟩).logged =
      ["Readiness/Startup check failed: not initialized yet"] ∧
    (Check ⟨{ dbHealthy := false, downstreamHealthy := true, isInitialized := true,
              shutdownInitiated := true }⟩ ⟨"readiness"⟩).logged =
      ["Readiness/Startup check failed: database is not healthy"] := by
  rcases s with ⟨db, ds, ini, sd⟩
  cases db <;> cases ds <;> cases ini <;> cases sd <;>
    simp [Check, specReportedReason, specFailurePriority]

end SafeLifecycle
